import Mathlib

/-!
Verification of the Pelican site configuration `pelicanconf.py`.

The source file is a flat sequence of module-level assignments of literal
values (string literals, tuples of string literals, lists of string
literals, and the boolean `True`).  We embed it as an ordered association
list from setting name to value, together with a small expression language
and an evaluator parametrised by an external environment, so that
determinism and environment-independence of loading can be stated.
-/

namespace Pelicanconf

/-- A configuration value, as the shapes of literals occurring in
`pelicanconf.py`: a Python string, a tuple of strings, a list of strings,
or a boolean. -/
inductive Value where
  | str  : String → Value
  | tup  : List String → Value
  | lst  : List String → Value
  | bool : Bool → Value
deriving DecidableEq, Repr

/-- An expression on the right-hand side of a module-level assignment.
Literal forms cover everything that occurs in `pelicanconf.py`; `getenv`
models an environment read (e.g. `os.environ[...]`), which a settings file
could in principle contain but this one does not. -/
inductive Expr where
  | strLit  : String → Expr
  | tupLit  : List String → Expr
  | lstLit  : List String → Expr
  | boolLit : Bool → Expr
  | getenv  : String → Expr
deriving DecidableEq, Repr

/-- The external world visible to the Python interpreter while it executes
the settings module: environment variables, file contents, and a clock. -/
structure Env where
  envVars    : String → Option String
  fileSystem : String → Option String
  now        : Nat

/-- Evaluate one right-hand-side expression in an environment. -/
def evalExpr (e : Env) : Expr → Value
  | .strLit s  => .str s
  | .tupLit xs => .tup xs
  | .lstLit xs => .lst xs
  | .boolLit b => .bool b
  | .getenv n  => .str ((e.envVars n).getD "")

/-- The module `pelicanconf.py` as the ordered sequence of its assignment
statements, each a setting name with its right-hand-side expression, in
source order. -/
def pelicanconfSource : List (String × Expr) :=
  [ ("AUTHOR",                    .strLit "Sean Anderson"),
    ("SITENAME",                  .strLit "pair of pared pears"),
    ("PATH",                      .strLit "content"),
    ("TIMEZONE",                  .strLit "America/New_York"),
    ("DEFAULT_LANG",              .strLit "en"),
    ("THEME",                     .strLit "blue-penguin"),
    ("THEME_TEMPLATES_OVERRIDES", .tupLit ["templates"]),
    ("STATIC_PATHS",              .tupLit ["theme"]),
    ("PLUGIN_PATHS",              .tupLit ["pelican-plugins"]),
    ("PLUGINS",                   .tupLit ["asciidoc_reader", "filetime_from_git"]),
    ("ASCIIDOC_CMD",              .strLit "asciidoctor"),
    ("ASCIIDOC_OPTIONS",          .lstLit ["-a", "source-highlighter=rouge"]),
    ("DELETE_OUTPUT_DIRECTORY",   .boolLit true) ]

/-- Execute the module in an environment: evaluate each assignment's
right-hand side, keeping source order. -/
def loadConfig (e : Env) : List (String × Value) :=
  pelicanconfSource.map (fun p => (p.1, evalExpr e p.2))

/-- The configuration record defined by `pelicanconf.py`: each setting in
source order with its (literal) value. -/
def pelicanconf : List (String × Value) :=
  [ ("AUTHOR",                    .str "Sean Anderson"),
    ("SITENAME",                  .str "pair of pared pears"),
    ("PATH",                      .str "content"),
    ("TIMEZONE",                  .str "America/New_York"),
    ("DEFAULT_LANG",              .str "en"),
    ("THEME",                     .str "blue-penguin"),
    ("THEME_TEMPLATES_OVERRIDES", .tup ["templates"]),
    ("STATIC_PATHS",              .tup ["theme"]),
    ("PLUGIN_PATHS",              .tup ["pelican-plugins"]),
    ("PLUGINS",                   .tup ["asciidoc_reader", "filetime_from_git"]),
    ("ASCIIDOC_CMD",              .str "asciidoctor"),
    ("ASCIIDOC_OPTIONS",          .lst ["-a", "source-highlighter=rouge"]),
    ("DELETE_OUTPUT_DIRECTORY",   .bool true) ]

/-- The setting keys defined by the configuration, in source order. -/
def keys : List String := pelicanconf.map Prod.fst

/-- Look a setting up in the record, Python-module style: the value of the
first (and, when keys are unique, only) binding of the key. -/
def getSetting (k : String) : Option Value :=
  List.lookup k pelicanconf

/-- The value a key is finally bound to after executing the module top to
bottom, where a later assignment to the same name would override an earlier
one (Python assignment semantics). -/
def finalBinding (k : String) : Option Value :=
  List.lookup k pelicanconf.reverse

/-- A value of string shape. -/
def isStr : Value → Bool
  | .str _ => true
  | _      => false

/-- A value that is a string, a tuple of strings, or a list of strings. -/
def isStrTupOrList : Value → Bool
  | .str _ => true
  | .tup _ => true
  | .lst _ => true
  | _      => false

/-- A value that is a proper sequence of strings (tuple or list), never a
bare string or a boolean. -/
def isStringSequence : Value → Bool
  | .tup _ => true
  | .lst _ => true
  | _      => false

/-- The multi-valued settings named by the spec. -/
def multiValuedKeys : List String :=
  ["THEME_TEMPLATES_OVERRIDES", "STATIC_PATHS", "PLUGIN_PATHS",
   "PLUGINS", "ASCIIDOC_OPTIONS"]

/-- Modelled from the spec: the first of the repository's three successive
versions of the settings table.  The later versions' additions named by the
spec — the theme template override path, the static asset path, and the
AsciiDoc renderer options — are absent; the prior versions themselves are
git history and not present under `src/`. -/
def pelicanconfV1 : List (String × Value) :=
  [ ("AUTHOR",                    .str "Sean Anderson"),
    ("SITENAME",                  .str "pair of pared pears"),
    ("PATH",                      .str "content"),
    ("TIMEZONE",                  .str "America/New_York"),
    ("DEFAULT_LANG",              .str "en"),
    ("THEME",                     .str "blue-penguin"),
    ("PLUGIN_PATHS",              .tup ["pelican-plugins"]),
    ("PLUGINS",                   .tup ["asciidoc_reader", "filetime_from_git"]),
    ("ASCIIDOC_CMD",              .str "asciidoctor"),
    ("DELETE_OUTPUT_DIRECTORY",   .bool true) ]

/-- Modelled from the spec: the second version of the settings table, which
adds the theme template override path and the static asset path over the
first, later extended with the AsciiDoc renderer options to give the final
`pelicanconf`. -/
def pelicanconfV2 : List (String × Value) :=
  [ ("AUTHOR",                    .str "Sean Anderson"),
    ("SITENAME",                  .str "pair of pared pears"),
    ("PATH",                      .str "content"),
    ("TIMEZONE",                  .str "America/New_York"),
    ("DEFAULT_LANG",              .str "en"),
    ("THEME",                     .str "blue-penguin"),
    ("THEME_TEMPLATES_OVERRIDES", .tup ["templates"]),
    ("STATIC_PATHS",              .tup ["theme"]),
    ("PLUGIN_PATHS",              .tup ["pelican-plugins"]),
    ("PLUGINS",                   .tup ["asciidoc_reader", "filetime_from_git"]),
    ("ASCIIDOC_CMD",              .str "asciidoctor"),
    ("DELETE_OUTPUT_DIRECTORY",   .bool true) ]

/-- Every key of the earlier record is a key of the later record, and is
bound to the same value in both. -/
def extends' (earlier later : List (String × Value)) : Bool :=
  (earlier.map Prod.fst).all
    (fun k => List.lookup k earlier == List.lookup k later)

end Pelicanconf

namespace Pelicanconf

/-- C1 (counterexample): the claim that every value in the configuration is
a string, a tuple of strings, or a list of strings fails at the concrete
binding `DELETE_OUTPUT_DIRECTORY = True`, whose value is a boolean. -/
theorem c1_counterexample :
    ("DELETE_OUTPUT_DIRECTORY", Value.bool true) ∈ pelicanconf ∧
    isStrTupOrList (Value.bool true) = false := by
  decide

/-- C1 (amended): every value assigned in the configuration record is a
string, a tuple of strings, or a list of strings, except for the single
setting `DELETE_OUTPUT_DIRECTORY`, whose value is the boolean `True`. -/
theorem c1_values_shapes :
    (pelicanconf.all
      (fun p => isStrTupOrList p.2 || p.1 == "DELETE_OUTPUT_DIRECTORY")) = true ∧
    getSetting "DELETE_OUTPUT_DIRECTORY" = some (Value.bool true) := by
  decide

/-- C2: the setting keys defined by the configuration are exactly the
thirteen listed fields, in source order — none missing, none extra. -/
theorem c2_exact_keys :
    keys = ["AUTHOR", "SITENAME", "PATH", "TIMEZONE", "DEFAULT_LANG",
            "THEME", "THEME_TEMPLATES_OVERRIDES", "STATIC_PATHS",
            "PLUGIN_PATHS", "PLUGINS", "ASCIIDOC_CMD", "ASCIIDOC_OPTIONS",
            "DELETE_OUTPUT_DIRECTORY"] := by
  decide

/-- C3: `PLUGINS` is the tuple `('asciidoc_reader', 'filetime_from_git')`,
activating exactly the AsciiDoc reader and the git file-timestamp plugin in
that order. -/
theorem c3_plugins :
    getSetting "PLUGINS" =
      some (Value.tup ["asciidoc_reader", "filetime_from_git"]) := by
  decide

/-- C4: `DELETE_OUTPUT_DIRECTORY` is defined and assigned the value `True`,
enabling clearing of the output directory before each build. -/
theorem c4_delete_output_directory :
    getSetting "DELETE_OUTPUT_DIRECTORY" = some (Value.bool true) := by
  decide

/-- C5: the AsciiDoc renderer is configured by the single external command
`ASCIIDOC_CMD = 'asciidoctor'` and the flag list
`ASCIIDOC_OPTIONS = ['-a', 'source-highlighter=rouge']`, a list whose
elements are strings. -/
theorem c5_asciidoc :
    getSetting "ASCIIDOC_CMD" = some (Value.str "asciidoctor") ∧
    getSetting "ASCIIDOC_OPTIONS" =
      some (Value.lst ["-a", "source-highlighter=rouge"]) := by
  decide

/-- C6: `THEME` is the single name `'blue-penguin'`, and
`THEME_TEMPLATES_OVERRIDES` is the one-element tuple `('templates',)` — a
collection of template search paths, not a bare string. -/
theorem c6_theme :
    getSetting "THEME" = some (Value.str "blue-penguin") ∧
    getSetting "THEME_TEMPLATES_OVERRIDES" = some (Value.tup ["templates"]) ∧
    (getSetting "THEME_TEMPLATES_OVERRIDES").all
      (fun v => !(isStr v)) = true := by
  decide

/-- C7: no setting key is bound more than once in the file, so the loaded
record maps each key to a unique value: for every defined key, the first
binding and the final (last-assignment-wins) binding agree. -/
theorem c7_unique_bindings :
    keys.Nodup ∧
    (keys.all (fun k => getSetting k == finalBinding k)) = true := by
  decide

/-- C8: across the successive versions of the settings table, each later
version's key set extends the prior one and preserves every previously
defined value, and the final version is exactly `pelicanconf`. -/
theorem c8_versions_accumulate :
    extends' pelicanconfV1 pelicanconfV2 = true ∧
    extends' pelicanconfV2 pelicanconf = true ∧
    (pelicanconfV1.map Prod.fst).Sublist (pelicanconfV2.map Prod.fst) ∧
    (pelicanconfV2.map Prod.fst).Sublist keys := by
  refine ⟨by decide, by decide, ?_, ?_⟩ <;> decide

/-- C9: loading the configuration is deterministic and effect-free: under
any two environments (env vars, filesystem, clock) the module evaluates to
the identical record, namely `pelicanconf`, since no assignment's
right-hand side reads the environment. -/
theorem c9_load_deterministic (e₁ e₂ : Env) :
    loadConfig e₁ = loadConfig e₂ ∧ loadConfig e₁ = pelicanconf :=
  ⟨rfl, rfl⟩

/-- C10: every multi-valued setting — `THEME_TEMPLATES_OVERRIDES`,
`STATIC_PATHS`, `PLUGIN_PATHS`, `PLUGINS`, `ASCIIDOC_OPTIONS` — is defined
and is a proper sequence (tuple or list) of strings, never a bare string. -/
theorem c10_sequences :
    (multiValuedKeys.all
      (fun k => match getSetting k with
        | some v => isStringSequence v
        | none   => false)) = true := by
  decide

end Pelicanconf
